import Mathlib

/-!
# Verification of the URL-shortener backend

Shallow embedding of `src/backend/server.py` (a FastAPI + MongoDB URL
shortener).  The Mongo collection `db.url_mappings` is modelled as a
`List URLShortenResponse` threaded through each handler; `insert_one`
appends, `find_one` is `List.find?`, `update_one` with `$inc` bumps the
first matching record, and `find().sort(...).limit(n)` is a stable merge
sort followed by `take`.  Randomness (`random.choice`), generated ids
(`uuid.uuid4`) and timestamps (`datetime.utcnow`) are passed in as
explicit parameters.  Python regular expressions used by the validators
are embedded as nondeterministic character-list matchers, including the
Python semantics of `$` (which also matches just before one trailing
newline).
-/

namespace UrlShortener

abbrev Chars := List Char

/-! ### Character classes (ASCII, after case folding for `re.IGNORECASE`) -/

def isLowerAlphaCh (c : Char) : Bool := 'a' ≤ c && c ≤ 'z'

def isUpperAlphaCh (c : Char) : Bool := 'A' ≤ c && c ≤ 'Z'

def isDigitCh (c : Char) : Bool := '0' ≤ c && c ≤ '9'

/-- `[A-Z0-9]` under `re.IGNORECASE`, on a case-folded string. -/
def isAlnumLowerCh (c : Char) : Bool := isLowerAlphaCh c || isDigitCh c

/-- `[A-Z0-9-]` under `re.IGNORECASE`, on a case-folded string. -/
def isDomainMidCh (c : Char) : Bool := isAlnumLowerCh c || c == '-'

/-- Python `\s` restricted to ASCII: space, tab, newline, carriage
return, vertical tab, form feed. -/
def isPySpaceCh (c : Char) : Bool :=
  c == ' ' || c == '\t' || c == '\n' || c == '\r' || c == '\x0b' || c == '\x0c'

/-- ASCII case folding of one character (models matching under
`re.IGNORECASE`). -/
def lowerAsciiCh (c : Char) : Char :=
  if isUpperAlphaCh c then Char.ofNat (c.toNat + 32) else c

/-- `[a-zA-Z0-9_-]`, the character class of the custom-code pattern
(no `IGNORECASE` flag there). -/
def isCodeChar (c : Char) : Bool :=
  isLowerAlphaCh c || isUpperAlphaCh c || isDigitCh c || c == '_' || c == '-'

/-- ASCII letters and digits: `string.ascii_letters + string.digits`
membership. -/
def isAsciiAlnumCh (c : Char) : Bool :=
  isLowerAlphaCh c || isUpperAlphaCh c || isDigitCh c

/-- Python `str.strip()` (ASCII whitespace). -/
def pyStrip (s : String) : String :=
  String.mk (((s.toList.dropWhile isPySpaceCh).reverse.dropWhile isPySpaceCh).reverse)

/-- Python string slicing `s[:n]`: the first `n` characters. -/
def pySlice (s : String) (n : Nat) : String :=
  String.mk (s.toList.take n)

/-- Python `s.startswith(p)` (case-sensitive). -/
def strStartsWith (s p : String) : Bool :=
  p.toList.isPrefixOf s.toList

/-! ### Nondeterministic regex matchers

Each matcher sends an input suffix to the list of suffixes remaining
after every possible way of consuming a prefix.  The overall pattern is
anchored at both ends, so a string matches iff some final suffix
satisfies the `$` test. -/

/-- Match one character satisfying `p`. -/
def mChar (p : Char → Bool) : Chars → List Chars
  | [] => []
  | c :: rest => if p c then [rest] else []

/-- Match a literal character sequence. -/
def mLit : Chars → Chars → List Chars
  | [], s => [s]
  | _ :: _, [] => []
  | c :: cs, d :: s => if c == d then mLit cs s else []

/-- Remainders after consuming between `0` and `n` characters
satisfying `p` (bounded repetition `{0,n}`). -/
def mRepAtMost (p : Char → Bool) : Nat → Chars → List Chars
  | 0, s => [s]
  | n + 1, s =>
    s :: (match s with
          | [] => []
          | c :: rest => if p c then mRepAtMost p n rest else [])

/-- Remainders after consuming at least one character satisfying `p`
(repetition `+` on a character class). -/
def mPlusCh (p : Char → Bool) : Chars → List Chars
  | [] => []
  | c :: rest => if p c then rest :: mPlusCh p rest else []

/-- Python `$`: matches at the end of the string or just before a single
trailing newline. -/
def dollarEnd : Chars → Bool
  | [] => true
  | [c] => c == '\n'
  | _ => false

/-! ### The URL pattern of `URLShortenRequest.validate_url`

`^https?://((label\.)+[A-Z]{2,6}\.?|localhost|ip)(:\d+)?(/?|[/?]\S+)$`
with `re.IGNORECASE`, where `label = [A-Z0-9]([A-Z0-9-]{0,61}[A-Z0-9])?`
and `ip` is four `\d{1,3}` octets separated by dots. -/

/-- One domain label followed by a dot:
`[A-Z0-9](?:[A-Z0-9-]{0,61}[A-Z0-9])?\.` -/
def mDomainLabel (s : Chars) : List Chars :=
  ((mChar isAlnumLowerCh s).flatMap fun s1 =>
      s1 :: (mRepAtMost isDomainMidCh 61 s1).flatMap (mChar isAlnumLowerCh)).flatMap
    (mChar (· == '.'))

/-- One or more domain labels; `fuel` bounds the recursion (each label
consumes at least two characters). -/
def mDomainLabels : Nat → Chars → List Chars
  | 0, _ => []
  | fuel + 1, s => (mDomainLabel s).flatMap fun s1 => s1 :: mDomainLabels fuel s1

/-- Top-level domain with optional trailing dot: `[A-Z]{2,6}\.?` -/
def mTld (s : Chars) : List Chars :=
  (((mChar isLowerAlphaCh s).flatMap (mChar isLowerAlphaCh)).flatMap
      (mRepAtMost isLowerAlphaCh 4)).flatMap
    fun s3 => s3 :: mChar (· == '.') s3

/-- One IPv4 octet pattern `\d{1,3}`. -/
def mOctet (s : Chars) : List Chars :=
  (mChar isDigitCh s).flatMap (mRepAtMost isDigitCh 2)

/-- Dotted quad `\d{1,3}\.\d{1,3}\.\d{1,3}\.\d{1,3}`. -/
def mIp (s : Chars) : List Chars :=
  ((((((mOctet s).flatMap (mChar (· == '.'))).flatMap mOctet).flatMap
        (mChar (· == '.'))).flatMap mOctet).flatMap
      (mChar (· == '.'))).flatMap mOctet

/-- The host alternation: domain, `localhost`, or IPv4. -/
def mHost (s : Chars) : List Chars :=
  (mDomainLabels (s.length + 1) s).flatMap mTld
    ++ mLit "localhost".toList s
    ++ mIp s

/-- Optional port `(?::\d+)?`. -/
def mPortOpt (s : Chars) : List Chars :=
  s :: (mChar (· == ':') s).flatMap (mPlusCh isDigitCh)

/-- Trailing path-or-query and the `$` anchor: `(?:/?|[/?]\S+)$`. -/
def mPathEnd (s : Chars) : Bool :=
  dollarEnd s
    || (match s with
        | '/' :: r => dollarEnd r
        | _ => false)
    || (match s with
        | c :: r => (c == '/' || c == '?') && (mPlusCh (fun d => !isPySpaceCh d) r).any dollarEnd
        | [] => false)

/-- Scheme `^https?://`. -/
def mScheme (s : Chars) : List Chars :=
  (mLit "http".toList s).flatMap fun s1 =>
    (s1 :: mChar (· == 's') s1).flatMap (mLit "://".toList)

/-- `url_pattern.match(v)` as a Bool: the compiled pattern of
`validate_url`, applied case-insensitively. -/
def url_pattern_match (v : String) : Bool :=
  let s := v.toList.map lowerAsciiCh
  (((mScheme s).flatMap mHost).flatMap mPortOpt).any mPathEnd

/-- `re.match(r'^[a-zA-Z0-9_-]+$', v)` as a Bool (case-sensitive;
Python `$` may stop before one trailing newline). -/
def custom_code_pattern_match (v : String) : Bool :=
  (mPlusCh isCodeChar v.toList).any dollarEnd

/-! ### Validators of the request models -/

/-- `URLShortenRequest.validate_url`: prepend `https://` when the string
does not start with `http://` or `https://`, then require the URL
pattern to match; returns the (normalized) value or the `ValueError`
message. -/
def validate_url (v : String) : Except String String :=
  let v' := if strStartsWith v "http://" || strStartsWith v "https://" then v
            else "https://" ++ v
  if url_pattern_match v' then Except.ok v' else Except.error "Invalid URL format"

/-- `URLShortenRequest.validate_custom_code`: `None` passes; otherwise
the value must have length 3–20 and match `^[a-zA-Z0-9_-]+$`. -/
def validate_custom_code (v : Option String) : Except String (Option String) :=
  match v with
  | none => Except.ok none
  | some c =>
    if c.length < 3 || 20 < c.length then
      Except.error "Custom code must be between 3 and 20 characters"
    else if custom_code_pattern_match c then Except.ok (some c)
    else Except.error "Custom code can only contain letters, numbers, hyphens, and underscores"

/-- `BulkURLShortenRequest.validate_urls`: at most 50 and at least one
URL. -/
def validate_urls (v : List String) : Except String (List String) :=
  if 50 < v.length then Except.error "Maximum 50 URLs allowed per bulk request"
  else if v.length == 0 then Except.error "At least one URL is required"
  else Except.ok v

/-! ### Data model -/

/-- The response model, whose `dict()` is also the persisted document.
`id` defaults to a fresh UUID string and `created_at` to `utcnow()`
(modelled as a `Nat` timestamp); both are supplied by the caller of the
embedded handlers. -/
structure URLShortenResponse where
  id : String
  original_url : String
  short_code : String
  short_url : String
  custom : Bool
  created_at : Nat
  click_count : Nat
deriving DecidableEq

/-- The `db.url_mappings` collection, in insertion (natural) order. -/
abbrev Store := List URLShortenResponse

/-- A validated `URLShortenRequest` (output of the pydantic validators). -/
structure URLShortenRequest where
  url : String
  custom_code : Option String
deriving DecidableEq

/-- The response of `POST /shorten-bulk`. -/
structure BulkURLShortenResponse where
  results : List URLShortenResponse
  total_processed : Nat
  errors : List String
deriving DecidableEq

/-- An HTTP-level error outcome: a pydantic validation failure (FastAPI
responds 422) or an `HTTPException` with its status and detail. -/
inductive ApiError where
  | validation (detail : String)
  | http (status : Nat) (detail : String)
deriving DecidableEq

/-- Exceptions that can escape a handler body and hit its `except`
clauses: an `HTTPException` raised inside the `try`, or a `ValueError`. -/
inductive PyExc where
  | httpExc (status : Nat) (detail : String)
  | valueError (msg : String)
deriving DecidableEq

/-- Textual shape of `str(uuid.uuid4())`: 36 characters, hyphens at
positions 8, 13, 18 and 23, lowercase hexadecimal digits elsewhere
(version and variant bits are not constrained; they do not affect the
first eight characters). -/
def isHexDigitCh (c : Char) : Bool := isDigitCh c || ('a' ≤ c && c ≤ 'f')

def isUuidString (s : String) : Bool :=
  s.toList.length == 36 &&
    (List.range 36).all fun i =>
      if i == 8 || i == 13 || i == 18 || i == 23 then s.toList.getD i ' ' == '-'
      else isHexDigitCh (s.toList.getD i ' ')

/-! ### Store helpers and the code allocator -/

/-- `check_code_exists`: `find_one({"short_code": code}) is not None`. -/
def check_code_exists (code : String) (store : Store) : Bool :=
  (store.find? fun m => m.short_code == code).isSome

/-- `string.ascii_letters + string.digits`. -/
def characters : Chars :=
  "abcdefghijklmnopqrstuvwxyzABCDEFGHIJKLMNOPQRSTUVWXYZ0123456789".toList

/-- `generate_short_code`: one random character of `characters` per
position.  `pick i` models the `i`-th call of `random.choice`, reduced
modulo the alphabet size. -/
def generate_short_code (pick : Nat → Nat) (length : Nat) : String :=
  String.mk ((List.range length).map fun i => characters.getD (pick i % characters.length) 'a')

/-- The `for _ in range(max_attempts)` loop of `create_unique_short_code`:
`n` attempts remain and `i` attempts were already made.  When the loop
ends without a free candidate the fallback `str(uuid.uuid4())[:length]`
is returned, with no further uniqueness check. -/
def create_unique_short_code_loop (pick : Nat → Nat → Nat) (uuid : String) (store : Store)
    (length : Nat) : Nat → Nat → String
  | 0, _ => pySlice uuid length
  | n + 1, i =>
    let code := generate_short_code (pick i) length
    if check_code_exists code store then
      create_unique_short_code_loop pick uuid store length n (i + 1)
    else code

/-- `create_unique_short_code(length=8, max_attempts=10)`; `uuid` models
the `uuid.uuid4()` drawn in the fallback. -/
def create_unique_short_code (pick : Nat → Nat → Nat) (uuid : String) (store : Store)
    (length max_attempts : Nat) : String :=
  create_unique_short_code_loop pick uuid store length max_attempts 0

/-! ### `POST /shorten` -/

/-- Request-model validation as FastAPI performs it before the handler
runs; a failure becomes a 422 response and the handler (hence the store)
is never touched. -/
def parse_URLShortenRequest (url : String) (custom_code : Option String) :
    Except String URLShortenRequest :=
  match validate_url url with
  | Except.error m => Except.error m
  | Except.ok u =>
    match validate_custom_code custom_code with
    | Except.error m => Except.error m
    | Except.ok cc => Except.ok { url := u, custom_code := cc }

/-- The `try` body of `shorten_url`.  `if request.custom_code:` is
Python truthiness, so an empty string takes the auto-generation branch.
On success the record is appended to the store (`insert_one`). -/
def shorten_url_body (req : URLShortenRequest) (pick : Nat → Nat → Nat)
    (uuid id base_url : String) (now : Nat) (store : Store) :
    Except PyExc (URLShortenResponse × Store) :=
  match req.custom_code with
  | some c =>
    if c == "" then
      let code := create_unique_short_code pick uuid store 8 10
      let m : URLShortenResponse :=
        { id := id, original_url := req.url, short_code := code,
          short_url := base_url ++ "/api/r/" ++ code, custom := false,
          created_at := now, click_count := 0 }
      Except.ok (m, store ++ [m])
    else if check_code_exists c store then
      Except.error (PyExc.httpExc 400 ("Custom code '" ++ c ++ "' is already taken"))
    else
      let m : URLShortenResponse :=
        { id := id, original_url := req.url, short_code := c,
          short_url := base_url ++ "/api/r/" ++ c, custom := true,
          created_at := now, click_count := 0 }
      Except.ok (m, store ++ [m])
  | none =>
    let code := create_unique_short_code pick uuid store 8 10
    let m : URLShortenResponse :=
      { id := id, original_url := req.url, short_code := code,
        short_url := base_url ++ "/api/r/" ++ code, custom := false,
        created_at := now, click_count := 0 }
    Except.ok (m, store ++ [m])

/-- `shorten_url` with its `except` clauses.  `except ValueError` maps
to a 400 with the message; the bare `except Exception` also catches the
`HTTPException(400)` raised for an alias conflict (there is no
`except HTTPException: raise` here, unlike in `redirect_to_url`) and
turns it into a 500 "Internal server error". -/
def shorten_url (req : URLShortenRequest) (pick : Nat → Nat → Nat)
    (uuid id base_url : String) (now : Nat) (store : Store) :
    Except ApiError URLShortenResponse × Store :=
  match shorten_url_body req pick uuid id base_url now store with
  | Except.ok (m, store') => (Except.ok m, store')
  | Except.error (PyExc.valueError msg) => (Except.error (ApiError.http 400 msg), store)
  | Except.error (PyExc.httpExc _ _) =>
    (Except.error (ApiError.http 500 "Internal server error"), store)

/-- The full `POST /shorten` pipeline: pydantic validation, then the
handler. -/
def shorten_endpoint (url : String) (custom_code : Option String) (pick : Nat → Nat → Nat)
    (uuid id base_url : String) (now : Nat) (store : Store) :
    Except ApiError URLShortenResponse × Store :=
  match parse_URLShortenRequest url custom_code with
  | Except.error m => (Except.error (ApiError.validation m), store)
  | Except.ok req => shorten_url req pick uuid id base_url now store

/-! ### `POST /shorten-bulk` -/

/-- `f"URL {idx + 1} ({url}): {str(e)}"`. -/
def bulk_error_msg (idx1 : Nat) (url reason : String) : String :=
  "URL " ++ toString idx1 ++ " (" ++ url ++ "): " ++ reason

/-- One iteration of the bulk loop: validate `URLShortenRequest(url=
url.strip())`, allocate a code against the current store, and insert.
`insertFail` models `insert_one` raising (a store fault) with the given
exception message; any failure is returned as the entry's error string
and leaves the store unchanged.  The validation error message stands for
`str(e)` of the raised `ValidationError`. -/
def process_bulk_entry (pick2 : Nat → Nat → Nat) (uuid id base_url : String) (now : Nat)
    (insertFail : Option String) (url : String) (store : Store) :
    Except String URLShortenResponse × Store :=
  match validate_url (pyStrip url) with
  | Except.error msg => (Except.error msg, store)
  | Except.ok u =>
    let code := create_unique_short_code pick2 uuid store 8 10
    let m : URLShortenResponse :=
      { id := id, original_url := u, short_code := code,
        short_url := base_url ++ "/api/r/" ++ code, custom := false,
        created_at := now, click_count := 0 }
    match insertFail with
    | some msg => (Except.error msg, store)
    | none => (Except.ok m, store ++ [m])

/-- The `for idx, url in enumerate(request.urls)` loop, threading the
store; a failing entry appends `bulk_error_msg` and processing
continues. -/
def shorten_urls_bulk_loop (pick : Nat → Nat → Nat → Nat) (uuids ids : Nat → String)
    (times : Nat → Nat) (base_url : String) (insertFail : Nat → Option String) :
    Nat → List String → Store → List URLShortenResponse × List String × Store
  | _, [], store => ([], [], store)
  | idx, url :: rest, store =>
    match process_bulk_entry (pick idx) (uuids idx) (ids idx) base_url (times idx)
        (insertFail idx) url store with
    | (Except.ok m, store') =>
      let r := shorten_urls_bulk_loop pick uuids ids times base_url insertFail
        (idx + 1) rest store'
      (m :: r.1, r.2.1, r.2.2)
    | (Except.error msg, store') =>
      let r := shorten_urls_bulk_loop pick uuids ids times base_url insertFail
        (idx + 1) rest store'
      (r.1, bulk_error_msg (idx + 1) url msg :: r.2.1, r.2.2)

/-- `shorten_urls_bulk`: run the loop and assemble the response;
`total_processed = len(results)`.  The handler itself has no `try`, so
it always returns a `BulkURLShortenResponse` — per-entry failures never
become an internal-error response. -/
def shorten_urls_bulk (pick : Nat → Nat → Nat → Nat) (uuids ids : Nat → String)
    (times : Nat → Nat) (base_url : String) (insertFail : Nat → Option String)
    (urls : List String) (store : Store) : BulkURLShortenResponse × Store :=
  let r := shorten_urls_bulk_loop pick uuids ids times base_url insertFail 0 urls store
  ({ results := r.1, total_processed := r.1.length, errors := r.2.1 }, r.2.2)

/-- The full `POST /shorten-bulk` pipeline: pydantic validation of the
url list, then the handler. -/
def shorten_bulk_endpoint (pick : Nat → Nat → Nat → Nat) (uuids ids : Nat → String)
    (times : Nat → Nat) (base_url : String) (insertFail : Nat → Option String)
    (urls : List String) (store : Store) : Except ApiError BulkURLShortenResponse × Store :=
  match validate_urls urls with
  | Except.error m => (Except.error (ApiError.validation m), store)
  | Except.ok v =>
    let r := shorten_urls_bulk pick uuids ids times base_url insertFail v store
    (Except.ok r.1, r.2)

/-! ### `GET /r/{short_code}` and `GET /urls` -/

/-- `update_one({"short_code": code}, {"$inc": {"click_count": 1}})`:
increment the click count of the first matching document. -/
def update_one_inc_click (code : String) : Store → Store
  | [] => []
  | m :: rest =>
    if m.short_code == code then { m with click_count := m.click_count + 1 } :: rest
    else m :: update_one_inc_click code rest

/-- `redirect_to_url`: look up by exact `short_code`; 404 when absent
(the store untouched), otherwise increment the click count and answer a
302 redirect to the found document's `original_url`. -/
def redirect_to_url (short_code : String) (store : Store) :
    Except ApiError (Nat × String) × Store :=
  match store.find? fun m => m.short_code == short_code with
  | none => (Except.error (ApiError.http 404 "Short URL not found"), store)
  | some m => (Except.ok (302, m.original_url), update_one_inc_click short_code store)

/-- `get_urls`: `find().sort("created_at", -1).limit(limit)` — all
records sorted newest first, truncated to `limit` (FastAPI default 50).
A pure read: no store write is performed, so the function returns only
the page. -/
def get_urls (limit : Nat) (store : Store) : List URLShortenResponse :=
  (store.mergeSort fun a b => decide (b.created_at ≤ a.created_at)).take limit

/-! ### Concrete data for witnesses and counterexamples -/

/-- The claim's alias shape: 3–20 characters from `[A-Za-z0-9_-]`. -/
def aliasShape (s : String) : Bool :=
  3 ≤ s.toList.length && s.toList.length ≤ 20 && s.toList.all isCodeChar

/-- A stored record holding the custom code `taken123`. -/
def takenRecord : URLShortenResponse :=
  { id := "a0000000-0000-4000-8000-000000000000", original_url := "https://taken.com",
    short_code := "taken123", short_url := "http://localhost:8001/api/r/taken123",
    custom := true, created_at := 0, click_count := 0 }

/-- A store in which every candidate `"aaaaaaaa"` collides and the first
eight characters of the fallback UUID collide as well. -/
def collisionStore : Store :=
  [{ id := "b0000000-0000-4000-8000-000000000000", original_url := "https://a.com",
     short_code := "aaaaaaaa", short_url := "http://localhost:8001/api/r/aaaaaaaa",
     custom := false, created_at := 0, click_count := 0 },
   { id := "c0000000-0000-4000-8000-000000000000", original_url := "https://b.com",
     short_code := "deadbeef", short_url := "http://localhost:8001/api/r/deadbeef",
     custom := true, created_at := 1, click_count := 0 }]

/-- A stored record for the redirect witness. -/
def redirectRecord : URLShortenResponse :=
  { id := "d0000000-0000-4000-8000-000000000000", original_url := "https://w.com",
    short_code := "abc12", short_url := "http://localhost:8001/api/r/abc12",
    custom := true, created_at := 3, click_count := 7 }

/-- The record created by shortening `example.com` on an empty store
with the all-zero pick stream. -/
def exampleRecord : URLShortenResponse :=
  { id := "e0000000-0000-4000-8000-000000000000", original_url := "https://example.com",
    short_code := "aaaaaaaa", short_url := "http://localhost:8001/api/r/aaaaaaaa",
    custom := false, created_at := 5, click_count := 0 }

/-- The record created by the alias `"ab\n"` (accepted because Python's
`$` matches before a trailing newline). -/
def newlineRecord : URLShortenResponse :=
  { id := "f0000000-0000-4000-8000-000000000000", original_url := "https://example.com",
    short_code := "ab\n", short_url := "http://localhost:8001/api/r/ab\n",
    custom := true, created_at := 0, click_count := 0 }

/-- A store of ten records with distinct creation times, for the
listing witness. -/
def listStore : Store :=
  (List.range 10).map fun i =>
    { id := toString i, original_url := "https://a.com", short_code := "code" ++ toString i,
      short_url := "http://localhost:8001/api/r/code" ++ toString i,
      custom := false, created_at := i, click_count := 0 }

/-! ## Theorems -/

theorem isPrefixOf_append_self {α : Type} [BEq α] [LawfulBEq α] :
    ∀ (l t : List α), l.isPrefixOf (l ++ t) = true
  | [], _ => by simp [List.isPrefixOf]
  | a :: as, t => by simp [List.isPrefixOf, isPrefixOf_append_self as t]

theorem strStartsWith_append_self (p v : String) : strStartsWith (p ++ v) p = true := by
  have h : (p ++ v).toList = p.toList ++ v.toList := by
    simp [String.toList]
  unfold strStartsWith
  rw [h]
  exact isPrefixOf_append_self _ _

theorem validate_url_eq (v : String) :
    validate_url v =
      (if url_pattern_match (if strStartsWith v "http://" || strStartsWith v "https://"
                             then v else "https://" ++ v)
       then Except.ok (if strStartsWith v "http://" || strStartsWith v "https://"
                       then v else "https://" ++ v)
       else Except.error "Invalid URL format") := rfl

/-- C9: URL normalization is idempotent: for every input string that
already begins with `http://` or `https://` nothing is prepended, so
applying the URL validator to any string it has already accepted and
returned yields that same string unchanged. -/
theorem validate_url_idempotent (v w : String) (h : validate_url v = Except.ok w) :
    validate_url w = Except.ok w := by
  rw [validate_url_eq] at h
  cases h1 : strStartsWith v "http://" || strStartsWith v "https://" with
  | true =>
    simp only [h1] at h
    cases h2 : url_pattern_match v with
    | false => simp [h2] at h
    | true =>
      simp [h2] at h
      subst h
      rw [validate_url_eq, h1]
      simp [h2]
  | false =>
    simp only [h1] at h
    cases h2 : url_pattern_match ("https://" ++ v) with
    | false => simp [h2] at h
    | true =>
      simp [h2] at h
      subst h
      have hsw : strStartsWith ("https://" ++ v) "https://" = true :=
        strStartsWith_append_self "https://" v
      rw [validate_url_eq, hsw]
      simp [h2]

/-- C9 witness: the validator accepts `example.com` as
`https://example.com`, and accepts that output unchanged. -/
theorem validate_url_idempotent_witness :
    validate_url "https://example.com" = Except.ok "https://example.com" :=
  validate_url_idempotent "example.com" "https://example.com" rfl

theorem shorten_endpoint_validation_error (v : String) (cc : Option String)
    (pick : Nat → Nat → Nat) (uuid id base_url : String) (now : Nat) (store : Store)
    (msg : String) (hv : validate_url v = Except.error msg) :
    shorten_endpoint v cc pick uuid id base_url now store
      = (Except.error (ApiError.validation msg), store) := by
  simp [shorten_endpoint, parse_URLShortenRequest, hv]

theorem shorten_endpoint_ok_none (v u : String) (pick : Nat → Nat → Nat)
    (uuid id base_url : String) (now : Nat) (store : Store)
    (hv : validate_url v = Except.ok u) :
    shorten_endpoint v none pick uuid id base_url now store
      = (Except.ok
          { id := id, original_url := u,
            short_code := create_unique_short_code pick uuid store 8 10,
            short_url := base_url ++ "/api/r/" ++ create_unique_short_code pick uuid store 8 10,
            custom := false, created_at := now, click_count := 0 },
         store ++
          [{ id := id, original_url := u,
             short_code := create_unique_short_code pick uuid store 8 10,
             short_url := base_url ++ "/api/r/" ++ create_unique_short_code pick uuid store 8 10,
             custom := false, created_at := now, click_count := 0 }]) := by
  simp [shorten_endpoint, parse_URLShortenRequest, hv, validate_custom_code,
    shorten_url, shorten_url_body]

/-- C5: for every valid input URL lacking an `http` or `https` scheme,
normalization prepends exactly `https://`, and the stored
`original_url` of the created record is this normalized string; the
record is appended to the store with `custom = false` and
`click_count = 0`. -/
theorem shorten_prepends_https (v : String) (pick : Nat → Nat → Nat)
    (uuid id base_url : String) (now : Nat) (store : Store)
    (r : URLShortenResponse) (store' : Store)
    (h1 : strStartsWith v "http://" = false) (h2 : strStartsWith v "https://" = false)
    (h : shorten_endpoint v none pick uuid id base_url now store = (Except.ok r, store')) :
    r.original_url = "https://" ++ v ∧ r.custom = false ∧ r.click_count = 0
      ∧ store' = store ++ [r] := by
  cases hv : validate_url v with
  | error msg =>
    rw [shorten_endpoint_validation_error v none pick uuid id base_url now store msg hv] at h
    simp at h
  | ok u =>
    have hu : u = "https://" ++ v := by
      rw [validate_url_eq, h1, h2] at hv
      cases hp : url_pattern_match ("https://" ++ v) with
      | false => simp [hp] at hv
      | true => simp [hp] at hv; exact hv.symm
    rw [shorten_endpoint_ok_none v u pick uuid id base_url now store hv] at h
    rw [Prod.mk.injEq] at h
    obtain ⟨hr, hs⟩ := h
    rw [Except.ok.injEq] at hr
    subst hr
    exact ⟨hu, rfl, rfl, hs.symm⟩

/-- C5 witness: shortening `example.com` on the empty store yields a
record whose `original_url` is `https://example.com`. -/
theorem shorten_prepends_https_witness :
    exampleRecord.original_url = "https://" ++ "example.com" ∧ exampleRecord.custom = false
      ∧ exampleRecord.click_count = 0 ∧ [exampleRecord] = ([] : Store) ++ [exampleRecord] :=
  shorten_prepends_https "example.com" (fun _ _ => 0)
    "00000000-0000-4000-8000-000000000000" "e0000000-0000-4000-8000-000000000000"
    "http://localhost:8001" 5 [] exampleRecord [exampleRecord] rfl rfl rfl

/-- C1: the handler body of `shorten_url` does raise the intended
`HTTPException(400, "... is already taken")` for a duplicate custom
alias and inserts nothing, but the handler's bare `except Exception`
(there is no `except HTTPException: raise` as in `redirect_to_url`)
catches that very exception, so the endpoint answers
500 "Internal server error" instead of the 400 conflict. -/
theorem shorten_conflict_returns_500 :
    shorten_url_body { url := "https://google.com", custom_code := some "taken123" }
        (fun _ _ => 0) "00000000-0000-4000-8000-000000000000"
        "a1111111-0000-4000-8000-000000000000" "http://localhost:8001" 1 [takenRecord]
      = Except.error (PyExc.httpExc 400 "Custom code 'taken123' is already taken")
    ∧ shorten_endpoint "https://google.com" (some "taken123") (fun _ _ => 0)
        "00000000-0000-4000-8000-000000000000" "a1111111-0000-4000-8000-000000000000"
        "http://localhost:8001" 1 [takenRecord]
      = (Except.error (ApiError.http 500 "Internal server error"), [takenRecord]) :=
  ⟨rfl, rfl⟩

theorem create_unique_short_code_loop_eq (pick : Nat → Nat → Nat) (uuid : String)
    (store : Store) (length : Nat) :
    ∀ (n i : Nat), create_unique_short_code_loop pick uuid store length n i =
      (match (List.range' i n).find?
          (fun j => !check_code_exists (generate_short_code (pick j) length) store) with
       | some j => generate_short_code (pick j) length
       | none => pySlice uuid length) := by
  intro n
  induction n with
  | zero => intro i; simp [create_unique_short_code_loop]
  | succ n ih =>
    intro i
    rw [List.range'_succ]
    by_cases hc : check_code_exists (generate_short_code (pick i) length) store
    · rw [List.find?_cons_of_neg _ (by simp [hc])]
      rw [create_unique_short_code_loop, if_pos hc]
      exact ih (i + 1)
    · rw [List.find?_cons_of_pos _ (by simp [hc])]
      rw [create_unique_short_code_loop, if_neg hc]

theorem isAsciiAlnumCh_characters_getD (k : Nat) :
    isAsciiAlnumCh (characters.getD k 'a') = true := by
  by_cases hk : k < characters.length
  · have hmem : characters.getD k 'a' ∈ characters := by
      rw [List.getD_eq_getElem?_getD, List.getElem?_eq_getElem hk]
      exact List.getElem_mem hk
    have hall : ∀ c ∈ characters, isAsciiAlnumCh c = true := by decide
    exact hall _ hmem
  · have hd : characters.getD k 'a' = 'a' := by
      rw [List.getD_eq_getElem?_getD, List.getElem?_eq_none (Nat.le_of_not_lt hk)]
      rfl
    rw [hd]; decide

theorem generate_short_code_toList (p : Nat → Nat) (n : Nat) :
    (generate_short_code p n).toList
      = (List.range n).map fun i => characters.getD (p i % characters.length) 'a' := rfl

/-- C2 (amended): without an alias the allocator tries up to ten random
candidates, each of exactly eight ASCII letters or digits, returning the
first that is free; when all ten collide it returns
`str(uuid.uuid4())[:8]` with no further uniqueness check. -/
theorem create_unique_short_code_spec (pick : Nat → Nat → Nat) (uuid : String) (store : Store) :
    create_unique_short_code pick uuid store 8 10 =
      (match (List.range 10).find?
          (fun j => !check_code_exists (generate_short_code (pick j) 8) store) with
       | some j => generate_short_code (pick j) 8
       | none => pySlice uuid 8)
    ∧ ∀ p : Nat → Nat, (generate_short_code p 8).toList.length = 8
        ∧ (generate_short_code p 8).toList.all isAsciiAlnumCh = true := by
  constructor
  · rw [create_unique_short_code, List.range_eq_range']
    exact create_unique_short_code_loop_eq pick uuid store 8 10 0
  · intro p
    constructor
    · rw [generate_short_code_toList]
      simp
    · rw [generate_short_code_toList, List.all_eq_true]
      intro c hc
      obtain ⟨i, _, rfl⟩ := List.mem_map.mp hc
      exact isAsciiAlnumCh_characters_getD _

/-- C2 counterexample: a store containing the alias `deadbeef` and the
code `aaaaaaaa`, with a pick stream making every random candidate
`aaaaaaaa`: all ten attempts collide and the UUID fallback `deadbeef`
is returned even though it already exists in the store — the fallback
is not checked for uniqueness. -/
theorem create_unique_short_code_fallback_collides :
    create_unique_short_code (fun _ _ => 0) "deadbeef-0000-4000-8000-000000000000"
        collisionStore 8 10 = "deadbeef"
    ∧ check_code_exists "deadbeef" collisionStore = true
    ∧ isUuidString "deadbeef-0000-4000-8000-000000000000" = true
    ∧ ∀ i ∈ List.range 10,
        check_code_exists (generate_short_code ((fun _ _ => 0) i) 8) collisionStore = true :=
  ⟨rfl, rfl, rfl, by decide⟩

/-- C8: the alias `"ab\n"` — three characters, the last a newline — is
accepted by `validate_custom_code` (Python's `$` matches before one
trailing newline, contradicting the validator's own error message) and
is stored as a `short_code`, so the stored code is not drawn from
`[A-Za-z0-9_-]`. -/
theorem custom_code_newline_accepted :
    validate_custom_code (some "ab\n") = Except.ok (some "ab\n")
    ∧ shorten_endpoint "example.com" (some "ab\n") (fun _ _ => 0)
        "00000000-0000-4000-8000-000000000000" "f0000000-0000-4000-8000-000000000000"
        "http://localhost:8001" 0 []
      = (Except.ok newlineRecord, [newlineRecord])
    ∧ newlineRecord.short_code = "ab\n"
    ∧ aliasShape "ab\n" = false :=
  ⟨rfl, rfl, rfl, rfl⟩

theorem find?_middle {α : Type} (p : α → Bool) :
    ∀ (pre : List α) (m : α) (post : List α),
      (∀ x ∈ pre, p x = false) → p m = true → (pre ++ m :: post).find? p = some m := by
  intro pre
  induction pre with
  | nil =>
    intro m post _ hm
    simpa using List.find?_cons_of_pos post hm
  | cons a as ih =>
    intro m post hpre hm
    have ha : p a = false := hpre a (by simp)
    rw [List.cons_append, List.find?_cons_of_neg _ (by simp [ha])]
    exact ih m post (fun x hx => hpre x (by simp [hx])) hm

theorem update_one_inc_click_middle (code : String) :
    ∀ (pre : List URLShortenResponse) (m : URLShortenResponse) (post : Store),
      (∀ x ∈ pre, (x.short_code == code) = false) → (m.short_code == code) = true →
      update_one_inc_click code (pre ++ m :: post)
        = pre ++ { m with click_count := m.click_count + 1 } :: post := by
  intro pre
  induction pre with
  | nil =>
    intro m post _ hm
    simp [update_one_inc_click, hm]
  | cons a as ih =>
    intro m post hpre hm
    have ha : (a.short_code == code) = false := hpre a (by simp)
    simp only [List.cons_append, update_one_inc_click, ha]
    simp only [Bool.false_eq_true, if_false, List.append_eq]
    rw [ih m post (fun x hx => hpre x (by simp [hx])) hm]

/-- C3: resolving a `short_code` present in the store increments exactly
that (first matching) record's `click_count` by one, keeps every other
record unchanged, and answers a 302 redirect to the record's
`original_url`; resolving an absent code answers 404 and leaves the
store untouched. -/
theorem redirect_to_url_spec (code : String) (store : Store) :
    ((∀ m ∈ store, m.short_code ≠ code) →
      redirect_to_url code store
        = (Except.error (ApiError.http 404 "Short URL not found"), store))
    ∧ ∀ (pre : Store) (m : URLShortenResponse) (post : Store),
        store = pre ++ m :: post → m.short_code = code → (∀ x ∈ pre, x.short_code ≠ code) →
        redirect_to_url code store
          = (Except.ok (302, m.original_url),
             pre ++ { m with click_count := m.click_count + 1 } :: post) := by
  constructor
  · intro hnone
    have hfind : (store.find? fun m => m.short_code == code) = none := by
      rw [List.find?_eq_none]
      intro x hx
      simp [hnone x hx]
    simp [redirect_to_url, hfind]
  · intro pre m post hsplit hm hpre
    subst hsplit
    have hm' : (m.short_code == code) = true := by simp [hm]
    have hpre' : ∀ x ∈ pre, (x.short_code == code) = false := fun x hx => by simp [hpre x hx]
    have hfind := find?_middle (fun x => x.short_code == code) pre m post hpre' hm'
    simp [redirect_to_url, hfind, update_one_inc_click_middle code pre m post hpre' hm']

/-- C3 witness: resolving `abc12` against a one-record store increments
its click count from 7 to 8 and redirects to its URL; resolving `zzz99`
yields 404 with the store unchanged. -/
theorem redirect_to_url_spec_witness :
    redirect_to_url "abc12" [redirectRecord]
      = (Except.ok (302, redirectRecord.original_url),
         [] ++ { redirectRecord with click_count := redirectRecord.click_count + 1 } :: [])
    ∧ redirect_to_url "zzz99" [redirectRecord]
      = (Except.error (ApiError.http 404 "Short URL not found"), [redirectRecord]) :=
  ⟨(redirect_to_url_spec "abc12" [redirectRecord]).2 [] redirectRecord [] rfl rfl (by simp),
   (redirect_to_url_spec "zzz99" [redirectRecord]).1 (by decide)⟩

/-- C7: the listing is a pure read returning at most `limit` records
(exactly `min limit store.length` of them), sorted by `created_at`
descending, all drawn from the store. -/
theorem get_urls_spec (limit : Nat) (store : Store) :
    (get_urls limit store).length = min limit store.length
    ∧ (get_urls limit store).Pairwise (fun a b => b.created_at ≤ a.created_at)
    ∧ ∀ m ∈ get_urls limit store, m ∈ store := by
  refine ⟨?_, ?_, ?_⟩
  · simp [get_urls]
  · have htrans : ∀ a b c : URLShortenResponse,
        decide (b.created_at ≤ a.created_at) = true →
        decide (c.created_at ≤ b.created_at) = true →
        decide (c.created_at ≤ a.created_at) = true := by
      intro a b c hab hbc
      simp at hab hbc ⊢
      omega
    have htotal : ∀ a b : URLShortenResponse,
        (decide (b.created_at ≤ a.created_at) || decide (a.created_at ≤ b.created_at)) = true := by
      intro a b
      simp
      omega
    have hs := List.sorted_mergeSort htrans htotal store
    have hs' := List.Pairwise.sublist
      (List.take_sublist limit (store.mergeSort fun a b => decide (b.created_at ≤ a.created_at))) hs
    exact hs'.imp fun h => of_decide_eq_true h
  · intro m hm
    unfold get_urls at hm
    exact List.mem_mergeSort.mp
      ((List.take_sublist limit
        (store.mergeSort fun a b => decide (b.created_at ≤ a.created_at))).subset hm)

/-- C7 witness: listing with limit 5 over ten stored records returns
exactly five. -/
theorem get_urls_spec_witness : (get_urls 5 listStore).length = 5 :=
  ((get_urls_spec 5 listStore).1).trans (by decide)

theorem process_bulk_entry_spec (pick2 : Nat → Nat → Nat) (uuid id base_url : String)
    (now : Nat) (insertFail : Option String) (url : String) (store : Store) :
    (∃ msg, process_bulk_entry pick2 uuid id base_url now insertFail url store
        = (Except.error msg, store))
    ∨ ∃ m, process_bulk_entry pick2 uuid id base_url now insertFail url store
        = (Except.ok m, store ++ [m]) := by
  cases hv : validate_url (pyStrip url) with
  | error msg => exact Or.inl ⟨msg, by simp [process_bulk_entry, hv]⟩
  | ok u =>
    cases hf : insertFail with
    | some msg => exact Or.inl ⟨msg, by simp [process_bulk_entry, hv, hf]⟩
    | none =>
      refine Or.inr
        ⟨{ id := id, original_url := u,
           short_code := create_unique_short_code pick2 uuid store 8 10,
           short_url := base_url ++ "/api/r/" ++ create_unique_short_code pick2 uuid store 8 10,
           custom := false, created_at := now, click_count := 0 }, ?_⟩
      simp [process_bulk_entry, hv, hf]

theorem shorten_urls_bulk_loop_append (pick : Nat → Nat → Nat → Nat) (uuids ids : Nat → String)
    (times : Nat → Nat) (base_url : String) (insertFail : Nat → Option String) :
    ∀ (us₁ us₂ : List String) (idx : Nat) (store : Store),
      shorten_urls_bulk_loop pick uuids ids times base_url insertFail idx (us₁ ++ us₂) store
        = ((shorten_urls_bulk_loop pick uuids ids times base_url insertFail idx us₁ store).1
            ++ (shorten_urls_bulk_loop pick uuids ids times base_url insertFail
                (idx + us₁.length) us₂
                (shorten_urls_bulk_loop pick uuids ids times base_url insertFail
                  idx us₁ store).2.2).1,
           (shorten_urls_bulk_loop pick uuids ids times base_url insertFail idx us₁ store).2.1
            ++ (shorten_urls_bulk_loop pick uuids ids times base_url insertFail
                (idx + us₁.length) us₂
                (shorten_urls_bulk_loop pick uuids ids times base_url insertFail
                  idx us₁ store).2.2).2.1,
           (shorten_urls_bulk_loop pick uuids ids times base_url insertFail
              (idx + us₁.length) us₂
              (shorten_urls_bulk_loop pick uuids ids times base_url insertFail
                idx us₁ store).2.2).2.2) := by
  intro us₁
  induction us₁ with
  | nil =>
    intro us₂ idx store
    simp [shorten_urls_bulk_loop]
  | cons u us ih =>
    intro us₂ idx store
    have hidx : idx + (us.length + 1) = idx + 1 + us.length := by omega
    rcases process_bulk_entry_spec (pick idx) (uuids idx) (ids idx) base_url (times idx)
        (insertFail idx) u store with ⟨msg, hpe⟩ | ⟨m, hpe⟩
    · rw [List.cons_append]
      simp only [shorten_urls_bulk_loop, hpe, List.length_cons, hidx]
      rw [ih us₂ (idx + 1) store]
      simp
    · rw [List.cons_append]
      simp only [shorten_urls_bulk_loop, hpe, List.length_cons, hidx]
      rw [ih us₂ (idx + 1) (store ++ [m])]
      simp

theorem shorten_urls_bulk_loop_store (pick : Nat → Nat → Nat → Nat) (uuids ids : Nat → String)
    (times : Nat → Nat) (base_url : String) (insertFail : Nat → Option String) :
    ∀ (urls : List String) (idx : Nat) (store : Store),
      (shorten_urls_bulk_loop pick uuids ids times base_url insertFail idx urls store).2.2
        = store ++ (shorten_urls_bulk_loop pick uuids ids times base_url insertFail
            idx urls store).1 := by
  intro urls
  induction urls with
  | nil =>
    intro idx store
    simp [shorten_urls_bulk_loop]
  | cons u us ih =>
    intro idx store
    rcases process_bulk_entry_spec (pick idx) (uuids idx) (ids idx) base_url (times idx)
        (insertFail idx) u store with ⟨msg, hpe⟩ | ⟨m, hpe⟩
    · simp only [shorten_urls_bulk_loop, hpe]
      exact ih (idx + 1) store
    · simp only [shorten_urls_bulk_loop, hpe]
      rw [ih (idx + 1) (store ++ [m])]
      simp

theorem shorten_urls_bulk_loop_count (pick : Nat → Nat → Nat → Nat) (uuids ids : Nat → String)
    (times : Nat → Nat) (base_url : String) (insertFail : Nat → Option String) :
    ∀ (urls : List String) (idx : Nat) (store : Store),
      (shorten_urls_bulk_loop pick uuids ids times base_url insertFail idx urls store).1.length
        + (shorten_urls_bulk_loop pick uuids ids times base_url insertFail
            idx urls store).2.1.length = urls.length := by
  intro urls
  induction urls with
  | nil =>
    intro idx store
    simp [shorten_urls_bulk_loop]
  | cons u us ih =>
    intro idx store
    rcases process_bulk_entry_spec (pick idx) (uuids idx) (ids idx) base_url (times idx)
        (insertFail idx) u store with ⟨msg, hpe⟩ | ⟨m, hpe⟩
    · simp only [shorten_urls_bulk_loop, hpe, List.length_cons]
      have := ih (idx + 1) store
      omega
    · simp only [shorten_urls_bulk_loop, hpe, List.length_cons]
      have := ih (idx + 1) (store ++ [m])
      omega

set_option maxHeartbeats 1000000 in
theorem shorten_urls_bulk_loop_errors (pick : Nat → Nat → Nat → Nat) (uuids ids : Nat → String)
    (times : Nat → Nat) (base_url : String) (insertFail : Nat → Option String) :
    ∀ (urls : List String) (idx : Nat) (store : Store),
      ∀ e ∈ (shorten_urls_bulk_loop pick uuids ids times base_url insertFail
          idx urls store).2.1,
        ∃ k msg, k < urls.length ∧ e = bulk_error_msg (idx + k + 1) (urls.getD k "") msg := by
  intro urls
  induction urls with
  | nil =>
    intro idx store e he
    simp [shorten_urls_bulk_loop] at he
  | cons u us ih =>
    intro idx store e he
    rcases process_bulk_entry_spec (pick idx) (uuids idx) (ids idx) base_url (times idx)
        (insertFail idx) u store with ⟨msg, hpe⟩ | ⟨m, hpe⟩
    · simp only [shorten_urls_bulk_loop, hpe] at he
      rcases List.mem_cons.mp he with he0 | heRest
      · exact ⟨0, msg, by simp, by simpa using he0⟩
      · obtain ⟨k, msg', hk, he'⟩ := ih (idx + 1) store e heRest
        refine ⟨k + 1, msg', by simp [Nat.succ_lt_succ hk], ?_⟩
        rw [he']
        have harith : idx + 1 + k + 1 = idx + (k + 1) + 1 := by omega
        rw [harith, List.getD_cons_succ]
    · simp only [shorten_urls_bulk_loop, hpe] at he
      obtain ⟨k, msg', hk, he'⟩ := ih (idx + 1) (store ++ [m]) e he
      refine ⟨k + 1, msg', by simp [Nat.succ_lt_succ hk], ?_⟩
      rw [he']
      have harith : idx + 1 + k + 1 = idx + (k + 1) + 1 := by omega
      rw [harith, List.getD_cons_succ]

/-- C4: the bulk handler processes entries independently in input order:
`total_processed` equals the number of successes, every entry yields
exactly one outcome (success or error), the successes are appended to
the store in order, every error string has the exact indexed form
`"URL {1-based index} ({original string}): {reason}"`, and any split of
the input processes the two parts independently (a failure in the first
part neither aborts the second nor undoes earlier successes). -/
theorem shorten_urls_bulk_spec (pick : Nat → Nat → Nat → Nat) (uuids ids : Nat → String)
    (times : Nat → Nat) (base_url : String) (insertFail : Nat → Option String)
    (urls : List String) (store : Store) :
    (shorten_urls_bulk pick uuids ids times base_url insertFail urls store).1.total_processed
      = (shorten_urls_bulk pick uuids ids times base_url insertFail urls store).1.results.length
    ∧ (shorten_urls_bulk pick uuids ids times base_url insertFail urls store).1.results.length
      + (shorten_urls_bulk pick uuids ids times base_url insertFail urls store).1.errors.length
      = urls.length
    ∧ (shorten_urls_bulk pick uuids ids times base_url insertFail urls store).2
      = store ++ (shorten_urls_bulk pick uuids ids times base_url insertFail urls store).1.results
    ∧ (∀ e ∈ (shorten_urls_bulk pick uuids ids times base_url insertFail urls store).1.errors,
        ∃ k msg, k < urls.length ∧ e = bulk_error_msg (k + 1) (urls.getD k "") msg)
    ∧ ∀ us₁ us₂, urls = us₁ ++ us₂ →
        (shorten_urls_bulk pick uuids ids times base_url insertFail urls store).1.results
          = (shorten_urls_bulk_loop pick uuids ids times base_url insertFail 0 us₁ store).1
            ++ (shorten_urls_bulk_loop pick uuids ids times base_url insertFail us₁.length us₂
                (shorten_urls_bulk_loop pick uuids ids times base_url insertFail
                  0 us₁ store).2.2).1
        ∧ (shorten_urls_bulk pick uuids ids times base_url insertFail urls store).1.errors
          = (shorten_urls_bulk_loop pick uuids ids times base_url insertFail 0 us₁ store).2.1
            ++ (shorten_urls_bulk_loop pick uuids ids times base_url insertFail us₁.length us₂
                (shorten_urls_bulk_loop pick uuids ids times base_url insertFail
                  0 us₁ store).2.2).2.1 := by
  refine ⟨rfl, ?_, ?_, ?_, ?_⟩
  · exact shorten_urls_bulk_loop_count pick uuids ids times base_url insertFail urls 0 store
  · exact shorten_urls_bulk_loop_store pick uuids ids times base_url insertFail urls 0 store
  · intro e he
    obtain ⟨k, msg, hk, he'⟩ :=
      shorten_urls_bulk_loop_errors pick uuids ids times base_url insertFail urls 0 store e he
    exact ⟨k, msg, hk, by simpa using he'⟩
  · intro us₁ us₂ hsplit
    subst hsplit
    have h := shorten_urls_bulk_loop_append pick uuids ids times base_url insertFail
      us₁ us₂ 0 store
    rw [Nat.zero_add] at h
    constructor
    · show (shorten_urls_bulk_loop pick uuids ids times base_url insertFail
          0 (us₁ ++ us₂) store).1 = _
      rw [h]
    · show (shorten_urls_bulk_loop pick uuids ids times base_url insertFail
          0 (us₁ ++ us₂) store).2.1 = _
      rw [h]

/-- C4 witness: a batch of one malformed and one valid URL splits into
independently processed parts. -/
theorem shorten_urls_bulk_spec_witness :
    (shorten_urls_bulk (fun _ _ _ => 0) (fun _ => "00000000-0000-4000-8000-000000000000")
        (fun _ => "id0") (fun _ => 0) "http://localhost:8001" (fun _ => none)
        ["x y", "sample.com"] []).1.results
      = (shorten_urls_bulk_loop (fun _ _ _ => 0) (fun _ => "00000000-0000-4000-8000-000000000000")
          (fun _ => "id0") (fun _ => 0) "http://localhost:8001" (fun _ => none) 0 ["x y"] []).1
        ++ (shorten_urls_bulk_loop (fun _ _ _ => 0)
            (fun _ => "00000000-0000-4000-8000-000000000000") (fun _ => "id0") (fun _ => 0)
            "http://localhost:8001" (fun _ => none) (List.length ["x y"]) ["sample.com"]
            (shorten_urls_bulk_loop (fun _ _ _ => 0)
              (fun _ => "00000000-0000-4000-8000-000000000000") (fun _ => "id0") (fun _ => 0)
              "http://localhost:8001" (fun _ => none) 0 ["x y"] []).2.2).1 :=
  ((shorten_urls_bulk_spec (fun _ _ _ => 0) (fun _ => "00000000-0000-4000-8000-000000000000")
      (fun _ => "id0") (fun _ => 0) "http://localhost:8001" (fun _ => none)
      ["x y", "sample.com"] []).2.2.2.2 ["x y"] ["sample.com"] rfl).1

/-- C6: a bulk request is rejected as a whole, with the store untouched,
exactly when its list of URLs is empty or exceeds 50 entries; any list
of 1 to 50 entries is passed to the handler. -/
theorem bulk_validation_spec (pick : Nat → Nat → Nat → Nat) (uuids ids : Nat → String)
    (times : Nat → Nat) (base_url : String) (insertFail : Nat → Option String)
    (urls : List String) (store : Store) :
    (urls.length = 0 ∨ 50 < urls.length →
      shorten_bulk_endpoint pick uuids ids times base_url insertFail urls store
        = (Except.error (ApiError.validation
            (if 50 < urls.length then "Maximum 50 URLs allowed per bulk request"
             else "At least one URL is required")), store))
    ∧ (0 < urls.length → urls.length ≤ 50 →
        shorten_bulk_endpoint pick uuids ids times base_url insertFail urls store
          = (Except.ok (shorten_urls_bulk pick uuids ids times base_url insertFail
              urls store).1,
             (shorten_urls_bulk pick uuids ids times base_url insertFail urls store).2)) := by
  constructor
  · intro h
    rcases h with h0 | h50
    · have hn : ¬ 50 < urls.length := by omega
      simp [shorten_bulk_endpoint, validate_urls, h0, hn]
    · simp [shorten_bulk_endpoint, validate_urls, h50]
  · intro hpos hle
    have hn : ¬ 50 < urls.length := by omega
    have hz : ¬ urls.length = 0 := by omega
    simp [shorten_bulk_endpoint, validate_urls, hn, hz]

/-- C6 witness: the empty batch is rejected with the store untouched; a
one-element batch is handed to the handler. -/
theorem bulk_validation_spec_witness :
    shorten_bulk_endpoint (fun _ _ _ => 0) (fun _ => "00000000-0000-4000-8000-000000000000")
        (fun _ => "id0") (fun _ => 0) "http://localhost:8001" (fun _ => none) [] []
      = (Except.error (ApiError.validation "At least one URL is required"), [])
    ∧ shorten_bulk_endpoint (fun _ _ _ => 0) (fun _ => "00000000-0000-4000-8000-000000000000")
        (fun _ => "id0") (fun _ => 0) "http://localhost:8001" (fun _ => none) ["sample.com"] []
      = (Except.ok (shorten_urls_bulk (fun _ _ _ => 0)
          (fun _ => "00000000-0000-4000-8000-000000000000") (fun _ => "id0") (fun _ => 0)
          "http://localhost:8001" (fun _ => none) ["sample.com"] []).1,
         (shorten_urls_bulk (fun _ _ _ => 0) (fun _ => "00000000-0000-4000-8000-000000000000")
          (fun _ => "id0") (fun _ => 0) "http://localhost:8001" (fun _ => none)
          ["sample.com"] []).2) :=
  ⟨by simpa using (bulk_validation_spec (fun _ _ _ => 0)
      (fun _ => "00000000-0000-4000-8000-000000000000") (fun _ => "id0") (fun _ => 0)
      "http://localhost:8001" (fun _ => none) [] []).1 (Or.inl rfl),
   (bulk_validation_spec (fun _ _ _ => 0) (fun _ => "00000000-0000-4000-8000-000000000000")
      (fun _ => "id0") (fun _ => 0) "http://localhost:8001" (fun _ => none)
      ["sample.com"] []).2 (by simp) (by simp)⟩

/-- C10: a store-insert exception on one bulk entry is caught and
recorded as that entry's indexed error string carrying the raw exception
message; the batch is still fully processed (one outcome per entry) and
the handler returns a `BulkURLShortenResponse`, never an internal-error
response, on account of a per-entry failure. -/
theorem bulk_insert_failure_recorded (pick : Nat → Nat → Nat → Nat) (uuids ids : Nat → String)
    (times : Nat → Nat) (base_url : String) (insertFail : Nat → Option String)
    (urls : List String) (store : Store) (k : Nat) (msg u : String)
    (hk : k < urls.length)
    (hfail : insertFail k = some msg)
    (hvalid : validate_url (pyStrip (urls.getD k "")) = Except.ok u) :
    bulk_error_msg (k + 1) (urls.getD k "")
        msg
      ∈ (shorten_urls_bulk pick uuids ids times base_url insertFail urls store).1.errors
    ∧ (shorten_urls_bulk pick uuids ids times base_url insertFail urls store).1.results.length
      + (shorten_urls_bulk pick uuids ids times base_url insertFail urls store).1.errors.length
      = urls.length := by
  have hget : urls.getD k "" = urls[k] := by
    rw [List.getD_eq_getElem?_getD, List.getElem?_eq_getElem hk]
    rfl
  constructor
  · have hsplit : urls = urls.take k ++ urls[k] :: urls.drop (k + 1) := by
      rw [← List.drop_eq_getElem_cons hk, List.take_append_drop]
    have hlen : (urls.take k).length = k := by
      simp [List.length_take]
      omega
    have hloop : shorten_urls_bulk_loop pick uuids ids times base_url insertFail 0 urls store
        = shorten_urls_bulk_loop pick uuids ids times base_url insertFail 0
            (urls.take k ++ urls[k] :: urls.drop (k + 1)) store :=
      congrArg (fun l => shorten_urls_bulk_loop pick uuids ids times base_url insertFail
        0 l store) hsplit
    have happ := shorten_urls_bulk_loop_append pick uuids ids times base_url insertFail
      (urls.take k) (urls[k] :: urls.drop (k + 1)) 0 store
    rw [Nat.zero_add, hlen] at happ
    have hv' : validate_url (pyStrip urls[k]) = Except.ok u := by
      rw [← hget]
      exact hvalid
    have hpe : process_bulk_entry (pick k) (uuids k) (ids k) base_url (times k)
        (insertFail k) urls[k]
        (shorten_urls_bulk_loop pick uuids ids times base_url insertFail
          0 (urls.take k) store).2.2
        = (Except.error msg,
           (shorten_urls_bulk_loop pick uuids ids times base_url insertFail
             0 (urls.take k) store).2.2) := by
      simp [process_bulk_entry, hv', hfail]
    show bulk_error_msg (k + 1) (urls.getD k "") msg
      ∈ (shorten_urls_bulk_loop pick uuids ids times base_url insertFail 0 urls store).2.1
    rw [hget, hloop, happ]
    simp only [shorten_urls_bulk_loop, hpe]
    exact List.mem_append_right _ (List.mem_cons_self _ _)
  · exact shorten_urls_bulk_loop_count pick uuids ids times base_url insertFail urls 0 store

/-- C10 witness: with `insert_one` raising `boom` on the single entry
`sample.com`, the bulk response records
`URL 1 (sample.com): boom` and still accounts for every entry. -/
theorem bulk_insert_failure_recorded_witness :
    bulk_error_msg (0 + 1) (["sample.com"].getD 0 "") "boom"
      ∈ (shorten_urls_bulk (fun _ _ _ => 0) (fun _ => "00000000-0000-4000-8000-000000000000")
          (fun _ => "id0") (fun _ => 0) "http://localhost:8001" (fun _ => some "boom")
          ["sample.com"] []).1.errors
    ∧ (shorten_urls_bulk (fun _ _ _ => 0) (fun _ => "00000000-0000-4000-8000-000000000000")
        (fun _ => "id0") (fun _ => 0) "http://localhost:8001" (fun _ => some "boom")
        ["sample.com"] []).1.results.length
      + (shorten_urls_bulk (fun _ _ _ => 0) (fun _ => "00000000-0000-4000-8000-000000000000")
          (fun _ => "id0") (fun _ => 0) "http://localhost:8001" (fun _ => some "boom")
          ["sample.com"] []).1.errors.length
      = ["sample.com"].length :=
  bulk_insert_failure_recorded (fun _ _ _ => 0)
    (fun _ => "00000000-0000-4000-8000-000000000000") (fun _ => "id0") (fun _ => 0)
    "http://localhost:8001" (fun _ => some "boom") ["sample.com"] [] 0 "boom"
    "https://sample.com" (by simp) rfl rfl

end UrlShortener
